import Mathlib

/-!
Shallow embedding of the auto-order engine (`src/lib/auto-order-engine.ts`).

The engine executes recurring purchase orders: it selects `autoOrders`
documents with `status == "active"` and `time == queryTime`, evaluates the
recurrence rule and the duplicate-run guard for each candidate, and runs a
Firestore transaction per due candidate that reads the user and the menu
item, validates availability, stock and balance, and either commits seven
writes or throws, which aborts the transaction and discards every staged
write (standard Firestore `runTransaction` semantics: all writes are
buffered and applied only if the callback returns without throwing).

Documents are modelled as structures with `Option` fields where the source
reads them defensively (`?? 0`, `!== false`, `||` fallbacks); collections
are association lists keyed by document id, or plain lists for append-only
collections. Monetary amounts and stock are `Int` (JS numbers used
integrally by the engine); counters are `Nat`.
-/

namespace AutoOrderEngine

/-- Weekday symbols as produced by `DAY_MAP` in the source. -/
inductive DayOfWeek where
  | Sun | Mon | Tue | Wed | Thu | Fri | Sat
deriving DecidableEq, Repr

/-- The string name of a weekday, as stored in `customDays` arrays. -/
def dayName : DayOfWeek → String
  | .Sun => "Sun" | .Mon => "Mon" | .Tue => "Tue" | .Wed => "Wed"
  | .Thu => "Thu" | .Fri => "Fri" | .Sat => "Sat"

/-- `const WEEKDAYS: DayOfWeek[] = ["Mon", "Tue", "Wed", "Thu", "Fri"]`. -/
def WEEKDAYS : List DayOfWeek := [.Mon, .Tue, .Wed, .Thu, .Fri]

/-- Output of `getIST`: local time-of-day, weekday and calendar date. -/
structure ISTInfo where
  time : String
  day : DayOfWeek
  dateStr : String
deriving DecidableEq, Repr

/-- A `users/{userId}` document, with the fields the engine reads. -/
structure UserDoc where
  walletBalance : Option Int
  name : Option String
  email : Option String
  rollNumber : Option String
deriving DecidableEq, Repr

/-- A `menuItems/{itemId}` document, with the fields the engine touches. -/
structure MenuItemDoc where
  quantity : Option Int
  available : Option Bool
  name : Option String
  updatedAt : Option String
deriving DecidableEq, Repr

/-- An `autoOrders/{id}` document. `customDays = none` models an absent or
non-array field (`Array.isArray` guard in the source); the entries are raw
strings compared against the weekday name. -/
structure AutoOrderDoc where
  userId : String
  itemId : String
  itemName : String
  itemPrice : Int
  quantity : Int
  frequency : String
  customDays : Option (List String)
  status : String
  time : String
  lastExecutedDate : Option String
  lastExecutedAt : Option String
  lastFailedAt : Option String
  lastFailureReason : Option String
  totalExecutions : Int
  totalFailures : Int
  updatedAt : Option String
deriving DecidableEq, Repr

/-- A line item of an order document (W3). -/
structure OrderItem where
  id : String
  name : String
  price : Int
  quantity : Int
deriving DecidableEq, Repr

/-- An `orders` document created by W3. -/
structure OrderDoc where
  orderId : String
  userId : String
  userName : String
  userEmail : String
  userRollNumber : String
  items : List OrderItem
  total : Int
  paymentMode : String
  status : String
  isAutoOrder : Bool
  autoOrderId : String
  createdAt : String
  updatedAt : String
deriving DecidableEq, Repr

/-- A `walletTransactions` document created by W4. -/
structure WalletTxnDoc where
  userId : String
  type : String
  amount : Int
  description : String
  transactionId : String
  createdAt : String
deriving DecidableEq, Repr

/-- A `notifications` document created by W5. -/
structure NotifDoc where
  userId : String
  orderId : String
  type : String
  title : String
  message : String
  isRead : Bool
  createdAt : String
deriving DecidableEq, Repr

/-- An `autoOrderExecutions` document: success records carry the order id and
deltas, failure records carry a reason. -/
structure ExecDoc where
  autoOrderId : String
  userId : String
  orderId : Option String
  success : Bool
  failureReason : Option String
  amountDeducted : Option Int
  stockBefore : Option Int
  stockAfter : Option Int
  executedAt : String
deriving DecidableEq, Repr

/-- The durable store: the collections the engine reads or writes. Keyed
collections are association lists (document id, document). -/
structure Store where
  users : List (String × UserDoc)
  menuItems : List (String × MenuItemDoc)
  autoOrders : List (String × AutoOrderDoc)
  orders : List OrderDoc
  walletTransactions : List WalletTxnDoc
  notifications : List NotifDoc
  autoOrderExecutions : List ExecDoc
deriving DecidableEq, Repr

/-- Update the document under key `k` in an association list (Firestore
`transaction.update` on an existing document). -/
def updateAssoc {α : Type} (l : List (String × α)) (k : String) (f : α → α) :
    List (String × α) :=
  l.map (fun p => if p.1 = k then (p.1, f p.2) else p)

/-- The error kinds thrown inside the transaction callback
(`throw new Error("...")` in the source). -/
inductive TxError where
  | USER_NOT_FOUND
  | ITEM_NOT_FOUND
  | ITEM_UNAVAILABLE
  | INSUFFICIENT_STOCK
  | INSUFFICIENT_BALANCE
deriving DecidableEq, Repr

/-- A write staged inside the transaction callback. Firestore buffers these
and applies them only if the callback commits. -/
inductive StagedWrite where
  | updateMenuItem (itemId : String) (quantity : Int) (available : Bool)
      (updatedAt : String)
  | incrementWallet (userId : String) (delta : Int)
  | setOrder (o : OrderDoc)
  | setWalletTxn (t : WalletTxnDoc)
  | setNotification (n : NotifDoc)
  | setExecution (e : ExecDoc)
  | updateAutoOrderFailure (id : String) (lastExecutedDate lastExecutedAt
      lastFailedAt lastFailureReason updatedAt : String)
  | updateAutoOrderSuccess (id : String) (lastExecutedDate lastExecutedAt
      updatedAt : String)
deriving DecidableEq, Repr

/-- Apply one committed write to the store. `FieldValue.increment` treats an
absent numeric field as 0. -/
def applyWrite (s : Store) (w : StagedWrite) : Store :=
  match w with
  | .updateMenuItem itemId q avail upd =>
      { s with menuItems := (updateAssoc s.menuItems itemId
          (fun m => { m with quantity := some q, available := some avail,
                             updatedAt := some upd })) }
  | .incrementWallet userId delta =>
      { s with users := (updateAssoc s.users userId
          (fun u => { u with walletBalance := some (u.walletBalance.getD 0 + delta) })) }
  | .setOrder o => { s with orders := s.orders ++ [o] }
  | .setWalletTxn t => { s with walletTransactions := s.walletTransactions ++ [t] }
  | .setNotification n => { s with notifications := s.notifications ++ [n] }
  | .setExecution e => { s with autoOrderExecutions := s.autoOrderExecutions ++ [e] }
  | .updateAutoOrderFailure id led lea lfa lfr upd =>
      { s with autoOrders := (updateAssoc s.autoOrders id
          (fun a => { a with lastExecutedDate := some led,
                             lastExecutedAt := some lea,
                             lastFailedAt := some lfa,
                             lastFailureReason := some lfr,
                             totalFailures := a.totalFailures + 1,
                             updatedAt := some upd })) }
  | .updateAutoOrderSuccess id led lea upd =>
      { s with autoOrders := (updateAssoc s.autoOrders id
          (fun a => { a with lastExecutedDate := some led,
                             lastExecutedAt := some lea,
                             totalExecutions := a.totalExecutions + 1,
                             updatedAt := some upd })) }

/-- `userData.name || "Auto Order"` — JS `||` falls back on absent and on
the empty string. -/
def jsOr (o : Option String) (d : String) : String :=
  match o with
  | some s => if s = "" then d else s
  | none => d

/-- The transaction callback (source lines 193-399): read phase, validation
phase, write phase. Returns the staged write buffer on commit; on a throw,
returns the error together with the writes that had been staged before the
throw (which Firestore then discards — see `runTransaction`).
`currentStock = quantity ?? 0`, `walletBalance = walletBalance ?? 0`,
`isAvailable = available !== false` (so the unavailable branch fires exactly
when `available` is explicitly `false`). -/
def txBody (store : Store) (autoOrderId : String) (ao : AutoOrderDoc)
    (dateStr nowIso orderId txnId : String) :
    Except (TxError × List StagedWrite) (List StagedWrite) :=
  match List.lookup ao.userId store.users with
  | none => .error (.USER_NOT_FOUND, [])
  | some userData =>
    let walletBalance := userData.walletBalance.getD 0
    match List.lookup ao.itemId store.menuItems with
    | none => .error (.ITEM_NOT_FOUND, [])
    | some menuItemData =>
      let currentStock := menuItemData.quantity.getD 0
      let total := ao.itemPrice * ao.quantity
      if menuItemData.available = some false then
        .error (.ITEM_UNAVAILABLE,
          [ .setExecution
              { autoOrderId := autoOrderId, userId := ao.userId,
                orderId := none, success := false,
                failureReason := some ("Item \"" ++ ao.itemName ++ "\" is unavailable"),
                amountDeducted := none, stockBefore := none, stockAfter := none,
                executedAt := nowIso },
            .updateAutoOrderFailure autoOrderId dateStr nowIso nowIso
              ("Item \"" ++ ao.itemName ++ "\" is currently unavailable") nowIso ])
      else if currentStock < ao.quantity then
        .error (.INSUFFICIENT_STOCK,
          [ .setExecution
              { autoOrderId := autoOrderId, userId := ao.userId,
                orderId := none, success := false,
                failureReason := some ("Insufficient stock: " ++ toString currentStock
                  ++ " available, " ++ toString ao.quantity ++ " needed"),
                amountDeducted := none, stockBefore := none, stockAfter := none,
                executedAt := nowIso },
            .updateAutoOrderFailure autoOrderId dateStr nowIso nowIso
              ("Insufficient stock for \"" ++ ao.itemName ++ "\" (" ++
                toString currentStock ++ " left, " ++ toString ao.quantity ++ " needed)")
              nowIso ])
      else if walletBalance < total then
        .error (.INSUFFICIENT_BALANCE,
          [ .setExecution
              { autoOrderId := autoOrderId, userId := ao.userId,
                orderId := none, success := false,
                failureReason := some ("Insufficient balance: ₹" ++ toString walletBalance
                  ++ " < ₹" ++ toString total),
                amountDeducted := none, stockBefore := none, stockAfter := none,
                executedAt := nowIso },
            .updateAutoOrderFailure autoOrderId dateStr nowIso nowIso
              ("Insufficient balance (₹" ++ toString walletBalance ++ " available, ₹"
                ++ toString total ++ " needed)") nowIso ])
      else
        let newStock := currentStock - ao.quantity
        .ok
          [ .updateMenuItem ao.itemId newStock (decide (newStock > 0)) nowIso,
            .incrementWallet ao.userId (-total),
            .setOrder
              { orderId := orderId, userId := ao.userId,
                userName := jsOr userData.name "Auto Order",
                userEmail := jsOr userData.email "",
                userRollNumber := jsOr userData.rollNumber "",
                items := [{ id := ao.itemId, name := ao.itemName,
                            price := ao.itemPrice, quantity := ao.quantity }],
                total := total, paymentMode := "Wallet", status := "pending",
                isAutoOrder := true, autoOrderId := autoOrderId,
                createdAt := nowIso, updatedAt := nowIso },
            .setWalletTxn
              { userId := ao.userId, type := "debit", amount := total,
                description := "Auto Order #" ++ orderId ++ " — " ++ ao.itemName
                  ++ " x" ++ toString ao.quantity,
                transactionId := txnId, createdAt := nowIso },
            .setNotification
              { userId := ao.userId, orderId := orderId, type := "auto_order",
                title := "Auto Order Placed ✅",
                message := ao.itemName ++ " x" ++ toString ao.quantity ++ " (₹"
                  ++ toString total ++ ") placed automatically.",
                isRead := false, createdAt := nowIso },
            .setExecution
              { autoOrderId := autoOrderId, userId := ao.userId,
                orderId := some orderId, success := true, failureReason := none,
                amountDeducted := some total, stockBefore := some currentStock,
                stockAfter := some newStock, executedAt := nowIso },
            .updateAutoOrderSuccess autoOrderId dateStr nowIso nowIso ]

/-- `adminDb.runTransaction`: runs the callback; if it throws, every staged
write is discarded and the store is unchanged (the error propagates); if it
returns, the buffered writes are applied atomically, in order. -/
def runTransaction (store : Store) (autoOrderId : String) (ao : AutoOrderDoc)
    (dateStr nowIso orderId txnId : String) : Except TxError Store :=
  match txBody store autoOrderId ao dateStr nowIso orderId txnId with
  | .ok ws => .ok (ws.foldl applyWrite store)
  | .error (e, _) => .error e

/-- The error kind carried by a thrown transaction callback, if any. -/
def errKind :
    Except (TxError × List StagedWrite) (List StagedWrite) → Option TxError
  | .error (e, _) => some e
  | .ok _ => none

/-- The day-of-week check (source lines 160-171): `daily` always runs;
`weekdays` runs on Mon-Fri; `custom` runs iff `customDays` is an array
containing today's weekday name; any other frequency never runs. -/
def shouldRun (ao : AutoOrderDoc) (day : DayOfWeek) : Bool :=
  if ao.frequency = "daily" then true
  else if ao.frequency = "weekdays" then WEEKDAYS.contains day
  else if ao.frequency = "custom" then
    match ao.customDays with
    | some ds => ds.contains (dayName day)
    | none => false
  else false

/-- The per-candidate error classification in the catch block
(source lines 404-426). -/
def classifyError (autoOrderId : String) (e : TxError) : String :=
  match e with
  | .INSUFFICIENT_BALANCE => autoOrderId ++ ": insufficient balance"
  | .USER_NOT_FOUND => autoOrderId ++ ": user not found"
  | .ITEM_NOT_FOUND => autoOrderId ++ ": menu item not found"
  | .ITEM_UNAVAILABLE => autoOrderId ++ ": item unavailable"
  | .INSUFFICIENT_STOCK => autoOrderId ++ ": insufficient stock"

/-- Deterministic stand-in for generated document / order identifiers
(`generateOrderId` and `.doc()` ids are external id supplies). -/
def genId (tag : String) (n : Nat) : String := tag ++ toString n

/-- Accumulated state of the per-candidate loop: the evolving store, the
four counters, the shared `errors` array, and the id-supply counter. -/
structure EngineState where
  store : Store
  processed : Nat
  succeeded : Nat
  failed : Nat
  skipped : Nat
  errors : List String
  ctr : Nat
deriving DecidableEq, Repr

/-- One iteration of the candidate loop (source lines 151-427): frequency
check, duplicate guard (`lastExecutedDate === ist.dateStr` on the selection
snapshot), then the transaction; a thrown `TxError` is caught at this
boundary, counted as failed and classified into `errors`. -/
def stepCandidate (ist : ISTInfo) (nowIso : String) (st : EngineState)
    (cand : String × AutoOrderDoc) : EngineState :=
  let autoOrderId := cand.1
  let ao := cand.2
  if ¬ shouldRun ao ist.day then
    { st with skipped := st.skipped + 1 }
  else if ao.lastExecutedDate = some ist.dateStr then
    { st with skipped := st.skipped + 1 }
  else
    match runTransaction st.store autoOrderId ao ist.dateStr nowIso
        (genId "ORD" st.ctr) (genId "TXN" st.ctr) with
    | .ok store2 =>
        { st with store := store2, processed := st.processed + 1,
                  succeeded := st.succeeded + 1, ctr := st.ctr + 1 }
    | .error e =>
        { st with processed := st.processed + 1, failed := st.failed + 1,
                  errors := st.errors ++ [classifyError autoOrderId e],
                  ctr := st.ctr + 1 }

/-- The selection query: `status == "active" AND time == queryTime`. -/
def isCandidate (queryTime : String) (p : String × AutoOrderDoc) : Bool :=
  p.2.status == "active" && p.2.time == queryTime

/-- The run summary (`AutoOrderResult` in the source). -/
structure AutoOrderResult where
  success : Bool
  time : String
  day : DayOfWeek
  date : String
  candidates : Nat
  skipped : Nat
  processed : Nat
  succeeded : Nat
  failed : Nat
  errors : List String
  message : Option String
deriving DecidableEq, Repr

/-- `executeAutoOrders`: the main engine function. `adminOk` models whether
the store is reachable at startup (the Firebase Admin SDK healthcheck);
`overrideTime` is the optional test-time override; `ist` is the output of
`getIST(now)` and `nowIso` is `now.toISOString()`. Returns the run summary
together with the post-run store. -/
def executeAutoOrders (adminOk : Bool) (store : Store) (ist : ISTInfo)
    (overrideTime : Option String) (nowIso : String) : AutoOrderResult × Store :=
  if ¬ adminOk then
    ({ success := false, time := "??:??", day := .Mon, date := "unknown",
       candidates := 0, skipped := 0, processed := 0, succeeded := 0,
       failed := 0, errors := ["Firebase Admin SDK init failed"],
       message := some "Firebase Admin SDK is not working" }, store)
  else
    let queryTime := overrideTime.getD ist.time
    let cands := store.autoOrders.filter (isCandidate queryTime)
    if cands.isEmpty then
      ({ success := true, time := queryTime, day := ist.day, date := ist.dateStr,
         candidates := 0, skipped := 0, processed := 0, succeeded := 0,
         failed := 0, errors := [],
         message := some ("No active auto orders for " ++ queryTime ++ " IST") },
       store)
    else
      let fin := cands.foldl (stepCandidate ist nowIso)
        { store := store, processed := 0, succeeded := 0, failed := 0,
          skipped := 0, errors := [], ctr := 0 }
      ({ success := true, time := queryTime, day := ist.day, date := ist.dateStr,
         candidates := cands.length, skipped := fin.skipped,
         processed := fin.processed, succeeded := fin.succeeded,
         failed := fin.failed, errors := fin.errors, message := none },
       fin.store)

/-! ### Sample data used by witness theorems -/

/-- A sample user with a ₹100 wallet. -/
def sampleUser : UserDoc :=
  { walletBalance := some 100, name := some "Bob", email := none, rollNumber := none }

/-- A sample menu item with stock 10 and no explicit `available` flag. -/
def sampleItem : MenuItemDoc :=
  { quantity := some 10, available := none, name := some "Tea", updatedAt := none }

/-- A sample active daily auto order: 2 × ₹5 at 09:00. -/
def sampleAuto : AutoOrderDoc :=
  { userId := "u1", itemId := "m1", itemName := "Tea", itemPrice := 5, quantity := 2,
    frequency := "daily", customDays := none, status := "active", time := "09:00",
    lastExecutedDate := none, lastExecutedAt := none, lastFailedAt := none,
    lastFailureReason := none, totalExecutions := 0, totalFailures := 0,
    updatedAt := none }

/-- A sample store holding the three documents above. -/
def sampleStore : Store :=
  { users := [("u1", sampleUser)], menuItems := [("m1", sampleItem)],
    autoOrders := [("a1", sampleAuto)], orders := [], walletTransactions := [],
    notifications := [], autoOrderExecutions := [] }

/-- A sample resolved instant: Monday 2026-10-11 09:00 IST. -/
def sampleIST : ISTInfo := { time := "09:00", day := .Mon, dateStr := "2026-10-11" }

/-- A sample resolved instant falling on a Sunday. -/
def sampleISTSun : ISTInfo := { time := "09:00", day := .Sun, dateStr := "2026-10-12" }

/-- The initial loop state over the sample store. -/
def sampleState : EngineState :=
  { store := sampleStore, processed := 0, succeeded := 0, failed := 0,
    skipped := 0, errors := [], ctr := 0 }

/-- The sample store with no user document. -/
def storeNoUser : Store := { sampleStore with users := [] }

/-- The sample store with no menu item document. -/
def storeNoItem : Store := { sampleStore with menuItems := [] }

/-- The sample store with the item explicitly marked unavailable. -/
def storeUnavailable : Store :=
  { sampleStore with menuItems := [("m1", { sampleItem with available := some false })] }

/-- The sample store with stock 1, below the requested quantity 2. -/
def storeLowStock : Store :=
  { sampleStore with menuItems := [("m1", { sampleItem with quantity := some 1 })] }

/-- The sample store with a ₹3 wallet, below the ₹10 order total. -/
def storePoor : Store :=
  { sampleStore with users := [("u1", { sampleUser with walletBalance := some 3 })] }

/-- The initial loop state over the low-balance store. -/
def samplePoorState : EngineState := { sampleState with store := storePoor }

/-- The sample store with the user's `walletBalance` field absent. -/
def storeNoWallet : Store :=
  { sampleStore with users := [("u1", { sampleUser with walletBalance := none })] }

/-- The sample store with the item's `quantity` field absent. -/
def storeNoQty : Store :=
  { sampleStore with menuItems := [("m1", { sampleItem with quantity := none })] }

/-- The store after the sample order's transaction commits. -/
def sampleStoreAfter : Store :=
  match runTransaction sampleStore "a1" sampleAuto "2026-10-11" "T" "ORD0" "TXN0" with
  | .ok s => s
  | .error _ => sampleStore

/-- The sample auto order after its tracking update W7. -/
def sampleAutoAfter : AutoOrderDoc :=
  { sampleAuto with
    lastExecutedDate := some "2026-10-11", lastExecutedAt := some "T",
    totalExecutions := 1, updatedAt := some "T" }

/-! ### Helper lemmas -/

/-- Looking up the updated key after an association-list update yields the
updated document. -/
theorem lookup_updateAssoc {α : Type} (k : String) (f : α → α) :
    ∀ (l : List (String × α)) (v : α),
      List.lookup k l = some v →
      List.lookup k (updateAssoc l k f) = some (f v) := by
  intro l
  induction l with
  | nil => intro v h; simp [List.lookup] at h
  | cons p t ih =>
    intro v h
    obtain ⟨k1, v1⟩ := p
    simp only [updateAssoc, List.map]
    simp only [List.lookup] at h
    by_cases hk : k1 = k
    · subst hk
      rw [if_pos rfl]
      simp only [List.lookup, beq_self_eq_true] at h ⊢
      injection h with h
      rw [h]
    · have hb : (k == k1) = false := by
        refine beq_eq_false_iff_ne.mpr ?_
        exact fun hh => hk hh.symm
      rw [if_neg hk]
      simp only [List.lookup, hb] at h ⊢
      exact ih v h

/-- Inversion: a committed transaction callback implies both reads
succeeded, every validation passed, and the buffer was returned by the
write phase. -/
theorem txBody_ok_inv (store : Store) (id : String) (ao : AutoOrderDoc)
    (dateStr nowIso orderId txnId : String) (ws : List StagedWrite)
    (h : txBody store id ao dateStr nowIso orderId txnId = .ok ws) :
    ∃ userData menuItemData,
      List.lookup ao.userId store.users = some userData ∧
      List.lookup ao.itemId store.menuItems = some menuItemData ∧
      ¬ menuItemData.available = some false ∧
      ¬ menuItemData.quantity.getD 0 < ao.quantity ∧
      ¬ userData.walletBalance.getD 0 < ao.itemPrice * ao.quantity := by
  unfold txBody at h
  cases hu : List.lookup ao.userId store.users with
  | none => rw [hu] at h; simp at h
  | some userData =>
    rw [hu] at h
    cases hm : List.lookup ao.itemId store.menuItems with
    | none => rw [hm] at h; simp at h
    | some menuItemData =>
      rw [hm] at h
      by_cases hav : menuItemData.available = some false
      · simp [hav] at h
      · by_cases hst : menuItemData.quantity.getD 0 < ao.quantity
        · simp [hav, hst] at h
        · by_cases hbal : userData.walletBalance.getD 0 < ao.itemPrice * ao.quantity
          · simp [hav, hst, hbal] at h
          · exact ⟨userData, menuItemData, rfl, rfl, hav, hst, hbal⟩

/-- Inversion: a thrown transaction callback threw either during the read
phase with an empty buffer, or during validation with exactly the failure
audit record and the failure tracking update staged (and then discarded by
the abort). -/
theorem txBody_error_inv (store : Store) (id : String) (ao : AutoOrderDoc)
    (dateStr nowIso orderId txnId : String) (e : TxError) (ws : List StagedWrite)
    (h : txBody store id ao dateStr nowIso orderId txnId = .error (e, ws)) :
    (e = .USER_NOT_FOUND ∧ ws = []) ∨ (e = .ITEM_NOT_FOUND ∧ ws = []) ∨
    (∃ ex reason,
      ws = [StagedWrite.setExecution ex,
            StagedWrite.updateAutoOrderFailure id dateStr nowIso nowIso reason nowIso] ∧
      ex.success = false ∧ ex.autoOrderId = id ∧
      (e = .ITEM_UNAVAILABLE ∨ e = .INSUFFICIENT_STOCK ∨ e = .INSUFFICIENT_BALANCE)) := by
  unfold txBody at h
  cases hu : List.lookup ao.userId store.users with
  | none =>
    rw [hu] at h
    simp at h
    obtain ⟨he, hws⟩ := h
    subst he
    subst hws
    exact Or.inl ⟨rfl, rfl⟩
  | some userData =>
    rw [hu] at h
    cases hm : List.lookup ao.itemId store.menuItems with
    | none =>
      rw [hm] at h
      simp at h
      obtain ⟨he, hws⟩ := h
      subst he
      subst hws
      exact Or.inr (Or.inl ⟨rfl, rfl⟩)
    | some menuItemData =>
      rw [hm] at h
      by_cases hav : menuItemData.available = some false
      · simp [hav] at h
        obtain ⟨he, hws⟩ := h
        subst he
        subst hws
        exact Or.inr (Or.inr ⟨_, _, rfl, rfl, rfl, Or.inl rfl⟩)
      · by_cases hst : menuItemData.quantity.getD 0 < ao.quantity
        · simp [hav, hst] at h
          obtain ⟨he, hws⟩ := h
          subst he
          subst hws
          exact Or.inr (Or.inr ⟨_, _, rfl, rfl, rfl, Or.inr (Or.inl rfl)⟩)
        · by_cases hbal : userData.walletBalance.getD 0 < ao.itemPrice * ao.quantity
          · simp [hav, hst, hbal] at h
            obtain ⟨he, hws⟩ := h
            subst he
            subst hws
            exact Or.inr (Or.inr ⟨_, _, rfl, rfl, rfl, Or.inr (Or.inr rfl)⟩)
          · simp [hav, hst, hbal] at h

/-- A candidate whose `lastExecutedDate` equals today is skipped whatever
its recurrence rule says. -/
theorem step_skip_of_guard (ist : ISTInfo) (nowIso : String) (st : EngineState)
    (id : String) (ao : AutoOrderDoc) (h : ao.lastExecutedDate = some ist.dateStr) :
    stepCandidate ist nowIso st (id, ao) = { st with skipped := st.skipped + 1 } := by
  by_cases hrun : shouldRun ao ist.day = true
  · simp [stepCandidate, hrun, h]
  · simp [stepCandidate, hrun]

/-- When both reads succeed and all three validations pass, the transaction
commits and the post-store is the initial store with exactly the seven
writes W1-W7 applied. -/
theorem runTransaction_ok_eq (store : Store) (id : String) (ao : AutoOrderDoc)
    (dateStr nowIso orderId txnId : String) (userData : UserDoc)
    (menuItemData : MenuItemDoc)
    (hu : List.lookup ao.userId store.users = some userData)
    (hm : List.lookup ao.itemId store.menuItems = some menuItemData)
    (hav : ¬ menuItemData.available = some false)
    (hst : ¬ menuItemData.quantity.getD 0 < ao.quantity)
    (hbal : ¬ userData.walletBalance.getD 0 < ao.itemPrice * ao.quantity) :
    runTransaction store id ao dateStr nowIso orderId txnId = .ok
      { store with
        menuItems := (updateAssoc store.menuItems ao.itemId (fun m =>
          { m with quantity := some (menuItemData.quantity.getD 0 - ao.quantity),
                   available := some (decide (menuItemData.quantity.getD 0 - ao.quantity > 0)),
                   updatedAt := some nowIso })),
        users := (updateAssoc store.users ao.userId (fun u =>
          { u with walletBalance := some (u.walletBalance.getD 0 + -(ao.itemPrice * ao.quantity)) })),
        orders := store.orders ++
          [ { orderId := orderId, userId := ao.userId,
              userName := jsOr userData.name "Auto Order",
              userEmail := jsOr userData.email "",
              userRollNumber := jsOr userData.rollNumber "",
              items := [{ id := ao.itemId, name := ao.itemName,
                          price := ao.itemPrice, quantity := ao.quantity }],
              total := ao.itemPrice * ao.quantity, paymentMode := "Wallet",
              status := "pending", isAutoOrder := true, autoOrderId := id,
              createdAt := nowIso, updatedAt := nowIso } ],
        walletTransactions := store.walletTransactions ++
          [ { userId := ao.userId, type := "debit",
              amount := ao.itemPrice * ao.quantity,
              description := "Auto Order #" ++ orderId ++ " — " ++ ao.itemName
                ++ " x" ++ toString ao.quantity,
              transactionId := txnId, createdAt := nowIso } ],
        notifications := store.notifications ++
          [ { userId := ao.userId, orderId := orderId, type := "auto_order",
              title := "Auto Order Placed ✅",
              message := ao.itemName ++ " x" ++ toString ao.quantity ++ " (₹"
                ++ toString (ao.itemPrice * ao.quantity) ++ ") placed automatically.",
              isRead := false, createdAt := nowIso } ],
        autoOrderExecutions := store.autoOrderExecutions ++
          [ { autoOrderId := id, userId := ao.userId, orderId := some orderId,
              success := true, failureReason := none,
              amountDeducted := some (ao.itemPrice * ao.quantity),
              stockBefore := some (menuItemData.quantity.getD 0),
              stockAfter := some (menuItemData.quantity.getD 0 - ao.quantity),
              executedAt := nowIso } ],
        autoOrders := (updateAssoc store.autoOrders id (fun a =>
          { a with lastExecutedDate := some dateStr,
                   lastExecutedAt := some nowIso,
                   totalExecutions := a.totalExecutions + 1,
                   updatedAt := some nowIso })) } := by
  simp [runTransaction, txBody, hu, hm, hav, hst, hbal, applyWrite, List.foldl]

/-! ### Claim theorems -/

/-- Claim C5: the Schedule Evaluator returns true for `daily` on every day;
for `weekdays` exactly on Mon-Fri; for `custom` exactly when today's
weekday name is in the configured set, and false when that set is absent
or malformed; false for any other rule value; and a not-due candidate is
counted as skipped and not processed further. -/
theorem schedule_evaluator_cases :
    (∀ (ao : AutoOrderDoc) (d : DayOfWeek), ao.frequency = "daily" →
      shouldRun ao d = true) ∧
    (∀ (ao : AutoOrderDoc) (d : DayOfWeek), ao.frequency = "weekdays" →
      (shouldRun ao d = true ↔ d ∈ WEEKDAYS)) ∧
    (∀ (ao : AutoOrderDoc) (d : DayOfWeek) (ds : List String),
      ao.frequency = "custom" → ao.customDays = some ds →
      (shouldRun ao d = true ↔ dayName d ∈ ds)) ∧
    (∀ (ao : AutoOrderDoc) (d : DayOfWeek), ao.frequency = "custom" →
      ao.customDays = none → shouldRun ao d = false) ∧
    (∀ (ao : AutoOrderDoc) (d : DayOfWeek), ao.frequency ≠ "daily" →
      ao.frequency ≠ "weekdays" → ao.frequency ≠ "custom" →
      shouldRun ao d = false) ∧
    (∀ (ist : ISTInfo) (nowIso : String) (st : EngineState)
      (c : String × AutoOrderDoc), shouldRun c.2 ist.day = false →
      stepCandidate ist nowIso st c = { st with skipped := st.skipped + 1 }) := by
  refine ⟨?_, ?_, ?_, ?_, ?_, ?_⟩
  · intro ao d h; simp [shouldRun, h]
  · intro ao d h; simp [shouldRun, h]
  · intro ao d ds h hds; simp [shouldRun, h, hds]
  · intro ao d h hds; simp [shouldRun, h, hds]
  · intro ao d h1 h2 h3; simp [shouldRun, h1, h2, h3]
  · intro ist nowIso st c h; simp [stepCandidate, h]

/-- Witness for C5 at concrete inputs: the sample daily order is due on
Monday; a weekdays order is not due on Sunday; a custom Mon-only order is
due on Monday; a custom order without a day set is never due; an unknown
rule is never due; and a not-due candidate only bumps `skipped`. -/
theorem schedule_evaluator_cases_witness :
    shouldRun sampleAuto .Mon = true ∧
    (shouldRun { sampleAuto with frequency := "weekdays" } .Sun = true ↔
      DayOfWeek.Sun ∈ WEEKDAYS) ∧
    (shouldRun { sampleAuto with frequency := "custom", customDays := some ["Mon"] } .Mon = true ↔ dayName .Mon ∈ ["Mon"]) ∧
    shouldRun { sampleAuto with frequency := "custom" } .Mon = false ∧
    shouldRun { sampleAuto with frequency := "monthly" } .Mon = false ∧
    stepCandidate sampleISTSun "T" sampleState
        ("a1", { sampleAuto with frequency := "weekdays" }) =
      { sampleState with skipped := sampleState.skipped + 1 } := by
  have h := schedule_evaluator_cases
  refine ⟨h.1 sampleAuto .Mon rfl, ?_, ?_, ?_, ?_, ?_⟩
  · exact h.2.1 { sampleAuto with frequency := "weekdays" } .Sun rfl
  · exact h.2.2.1 { sampleAuto with frequency := "custom", customDays := some ["Mon"] } .Mon ["Mon"] rfl rfl
  · exact h.2.2.2.1 { sampleAuto with frequency := "custom" } .Mon rfl rfl
  · exact h.2.2.2.2.1 { sampleAuto with frequency := "monthly" } .Mon
      (by decide) (by decide) (by decide)
  · exact h.2.2.2.2.2 sampleISTSun "T" sampleState
      ("a1", { sampleAuto with frequency := "weekdays" }) (by decide)

/-- Claim C6: a candidate whose selection-snapshot `lastExecutedDate`
equals today's date string is counted as skipped — not processed, not
failed — the store is untouched and the atomic operation is never
attempted for it. -/
theorem duplicate_guard_skips (ist : ISTInfo) (nowIso : String)
    (st : EngineState) (id : String) (ao : AutoOrderDoc)
    (h : ao.lastExecutedDate = some ist.dateStr) :
    stepCandidate ist nowIso st (id, ao) = { st with skipped := st.skipped + 1 } :=
  step_skip_of_guard ist nowIso st id ao h

/-- Witness for C6: the sample order with `lastExecutedDate` set to today
is skipped. -/
theorem duplicate_guard_skips_witness :
    stepCandidate sampleIST "T" sampleState
        ("a1", { sampleAuto with lastExecutedDate := some "2026-10-11" }) =
      { sampleState with skipped := sampleState.skipped + 1 } :=
  duplicate_guard_skips sampleIST "T" sampleState "a1"
    { sampleAuto with lastExecutedDate := some "2026-10-11" } rfl

/-- Claim C9: when no active auto order matches the query time, the run
short-circuits with `success = true`, all counters zero, empty errors, an
explanatory message, and no writes to the store. -/
theorem empty_selection_short_circuit (store : Store) (ist : ISTInfo)
    (overrideTime : Option String) (nowIso : String)
    (h : store.autoOrders.filter (isCandidate (overrideTime.getD ist.time)) = []) :
    executeAutoOrders true store ist overrideTime nowIso =
      ({ success := true, time := overrideTime.getD ist.time, day := ist.day,
         date := ist.dateStr, candidates := 0, skipped := 0, processed := 0,
         succeeded := 0, failed := 0, errors := [],
         message := some ("No active auto orders for "
           ++ overrideTime.getD ist.time ++ " IST") }, store) := by
  simp [executeAutoOrders, h]

/-- Witness for C9: the sample store has no candidate at 10:00. -/
theorem empty_selection_short_circuit_witness :
    executeAutoOrders true sampleStore sampleIST (some "10:00") "T" =
      ({ success := true, time := "10:00", day := sampleIST.day,
         date := sampleIST.dateStr, candidates := 0, skipped := 0,
         processed := 0, succeeded := 0, failed := 0, errors := [],
         message := some "No active auto orders for 10:00 IST" }, sampleStore) :=
  empty_selection_short_circuit sampleStore sampleIST (some "10:00") "T" (by decide)

/-- Claim C2: on commit the post-state satisfies exactly
`newStock = oldStock - quantity` with `available` recomputed as
`newStock > 0`; `newBalance = oldBalance - price * quantity`; exactly one
Order (total = price*quantity, wallet payment, status pending,
back-reference to the recurring order), one debit LedgerEntry, one
Notification and one success ExecutionAudit (order id, stock before/after,
amount deducted) are appended; and the recurring order gets
`lastExecutedDate = today` with its success counter incremented. -/
theorem tx_commit_postconditions (store : Store) (id : String)
    (ao : AutoOrderDoc) (dateStr nowIso orderId txnId : String)
    (userData : UserDoc) (menuItemData : MenuItemDoc)
    (hao : List.lookup id store.autoOrders = some ao)
    (hu : List.lookup ao.userId store.users = some userData)
    (hm : List.lookup ao.itemId store.menuItems = some menuItemData)
    (hav : ¬ menuItemData.available = some false)
    (hst : ¬ menuItemData.quantity.getD 0 < ao.quantity)
    (hbal : ¬ userData.walletBalance.getD 0 < ao.itemPrice * ao.quantity) :
    ∃ store2, runTransaction store id ao dateStr nowIso orderId txnId = .ok store2 ∧
      List.lookup ao.itemId store2.menuItems = some
        { menuItemData with
          quantity := some (menuItemData.quantity.getD 0 - ao.quantity),
          available := some (decide (menuItemData.quantity.getD 0 - ao.quantity > 0)),
          updatedAt := some nowIso } ∧
      List.lookup ao.userId store2.users = some
        { userData with
          walletBalance := some (userData.walletBalance.getD 0 - ao.itemPrice * ao.quantity) } ∧
      (∃ od : OrderDoc, store2.orders = store.orders ++ [od] ∧
        od.total = ao.itemPrice * ao.quantity ∧ od.paymentMode = "Wallet" ∧
        od.status = "pending" ∧ od.autoOrderId = id ∧ od.orderId = orderId) ∧
      (∃ tx : WalletTxnDoc,
        store2.walletTransactions = store.walletTransactions ++ [tx] ∧
        tx.type = "debit" ∧ tx.amount = ao.itemPrice * ao.quantity) ∧
      (∃ nt : NotifDoc, store2.notifications = store.notifications ++ [nt] ∧
        nt.userId = ao.userId ∧ nt.orderId = orderId) ∧
      (∃ ex : ExecDoc,
        store2.autoOrderExecutions = store.autoOrderExecutions ++ [ex] ∧
        ex.success = true ∧ ex.orderId = some orderId ∧
        ex.stockBefore = some (menuItemData.quantity.getD 0) ∧
        ex.stockAfter = some (menuItemData.quantity.getD 0 - ao.quantity) ∧
        ex.amountDeducted = some (ao.itemPrice * ao.quantity)) ∧
      (∃ ao2 : AutoOrderDoc, List.lookup id store2.autoOrders = some ao2 ∧
        ao2.lastExecutedDate = some dateStr ∧
        ao2.totalExecutions = ao.totalExecutions + 1) := by
  refine ⟨_, runTransaction_ok_eq store id ao dateStr nowIso orderId txnId
    userData menuItemData hu hm hav hst hbal, ?_, ?_, ?_, ?_, ?_, ?_, ?_⟩ <;>
      dsimp only
  · exact lookup_updateAssoc ao.itemId _ store.menuItems menuItemData hm
  · have h := lookup_updateAssoc ao.userId (fun u => { u with walletBalance := some (u.walletBalance.getD 0 + -(ao.itemPrice * ao.quantity)) }) store.users userData hu
    rw [h]
    simp [sub_eq_add_neg]
  · exact ⟨_, rfl, rfl, rfl, rfl, rfl, rfl⟩
  · exact ⟨_, rfl, rfl, rfl⟩
  · exact ⟨_, rfl, rfl, rfl⟩
  · exact ⟨_, rfl, rfl, rfl, rfl, rfl, rfl⟩
  · refine ⟨_, lookup_updateAssoc id _ store.autoOrders ao hao, ?_, ?_⟩ <;> rfl

/-- Witness for C2: applying the theorem to the sample store — ₹100
wallet, stock 10, a 2 × ₹5 daily order — and checking all postconditions
at those values. -/
theorem tx_commit_postconditions_witness :
    ∃ store2,
      runTransaction sampleStore "a1" sampleAuto "2026-10-11" "T" "ORD0" "TXN0" =
        .ok store2 ∧
      List.lookup "m1" store2.menuItems = some
        { sampleItem with quantity := some 8, available := some true,
                          updatedAt := some "T" } ∧
      List.lookup "u1" store2.users = some
        { sampleUser with walletBalance := some 90 } ∧
      (∃ od : OrderDoc, store2.orders = [] ++ [od] ∧ od.total = 10 ∧
        od.paymentMode = "Wallet" ∧ od.status = "pending" ∧
        od.autoOrderId = "a1" ∧ od.orderId = "ORD0") ∧
      (∃ tx : WalletTxnDoc, store2.walletTransactions = [] ++ [tx] ∧
        tx.type = "debit" ∧ tx.amount = 10) ∧
      (∃ nt : NotifDoc, store2.notifications = [] ++ [nt] ∧
        nt.userId = "u1" ∧ nt.orderId = "ORD0") ∧
      (∃ ex : ExecDoc, store2.autoOrderExecutions = [] ++ [ex] ∧
        ex.success = true ∧ ex.orderId = some "ORD0" ∧
        ex.stockBefore = some 10 ∧ ex.stockAfter = some 8 ∧
        ex.amountDeducted = some 10) ∧
      (∃ ao2 : AutoOrderDoc, List.lookup "a1" store2.autoOrders = some ao2 ∧
        ao2.lastExecutedDate = some "2026-10-11" ∧ ao2.totalExecutions = 1) := by
  have h := tx_commit_postconditions sampleStore "a1" sampleAuto "2026-10-11"
    "T" "ORD0" "TXN0" sampleUser sampleItem rfl rfl rfl (by decide) (by decide)
    (by decide)
  simpa using h

/-- Claim C1: when the atomic operation of a due, non-duplicate candidate
throws in the read or validation phase, the store is left entirely
unchanged for that candidate, and the failure-path audit and tracking
writes staged before the validation throw are discarded along with
everything else because Firestore aborts the whole transaction. -/
theorem tx_failure_atomic_abort (ist : ISTInfo) (nowIso : String)
    (st : EngineState) (id : String) (ao : AutoOrderDoc) (e : TxError)
    (ws : List StagedWrite)
    (hrun : shouldRun ao ist.day = true)
    (hdup : ¬ ao.lastExecutedDate = some ist.dateStr)
    (h : txBody st.store id ao ist.dateStr nowIso (genId "ORD" st.ctr)
      (genId "TXN" st.ctr) = .error (e, ws)) :
    (stepCandidate ist nowIso st (id, ao)).store = st.store ∧
    runTransaction st.store id ao ist.dateStr nowIso (genId "ORD" st.ctr)
      (genId "TXN" st.ctr) = .error e ∧
    ((e = .ITEM_UNAVAILABLE ∨ e = .INSUFFICIENT_STOCK ∨ e = .INSUFFICIENT_BALANCE) →
      ∃ ex reason,
        ws = [StagedWrite.setExecution ex,
              StagedWrite.updateAutoOrderFailure id ist.dateStr nowIso nowIso
                reason nowIso] ∧
        ex.success = false) := by
  refine ⟨?_, ?_, ?_⟩
  · simp [stepCandidate, hrun, hdup, runTransaction, h]
  · simp [runTransaction, h]
  · intro he
    rcases txBody_error_inv st.store id ao ist.dateStr nowIso _ _ e ws h with
      ⟨h1, _⟩ | ⟨h1, _⟩ | ⟨ex, reason, hws, hsucc, _, _⟩
    · rcases he with h2 | h2 | h2 <;> rw [h1] at h2 <;> exact absurd h2 (by decide)
    · rcases he with h2 | h2 | h2 <;> rw [h1] at h2 <;> exact absurd h2 (by decide)
    · exact ⟨ex, reason, hws, hsucc⟩

/-- Witness for C1: the ₹3-wallet candidate fails with insufficient
balance, the loop store is unchanged and the transaction aborts. -/
theorem tx_failure_atomic_abort_witness :
    (stepCandidate sampleIST "T" samplePoorState ("a1", sampleAuto)).store =
      samplePoorState.store ∧
    runTransaction samplePoorState.store "a1" sampleAuto sampleIST.dateStr "T"
      (genId "ORD" samplePoorState.ctr) (genId "TXN" samplePoorState.ctr) =
      .error .INSUFFICIENT_BALANCE := by
  have h := tx_failure_atomic_abort sampleIST "T" samplePoorState "a1"
    sampleAuto .INSUFFICIENT_BALANCE _ (by decide) (by decide) rfl
  exact ⟨h.1, h.2.1⟩

/-- Claim C3: `success = false` exactly when the store is unavailable at
startup; a per-candidate business failure is caught at the per-candidate
boundary, increments `processed` and `failed`, appends one classified
error string tagged with the candidate id, and leaves the store (hence
subsequent candidates) unaffected. -/
theorem success_flag_and_failure_isolation :
    (∀ (adminOk : Bool) (store : Store) (ist : ISTInfo) (ot : Option String)
      (nowIso : String),
      ((executeAutoOrders adminOk store ist ot nowIso).1.success = false ↔
        adminOk = false)) ∧
    (∀ (ist : ISTInfo) (nowIso : String) (st : EngineState) (id : String)
      (ao : AutoOrderDoc) (e : TxError) (ws : List StagedWrite),
      shouldRun ao ist.day = true → ¬ ao.lastExecutedDate = some ist.dateStr →
      txBody st.store id ao ist.dateStr nowIso (genId "ORD" st.ctr)
        (genId "TXN" st.ctr) = .error (e, ws) →
      stepCandidate ist nowIso st (id, ao) =
        { st with processed := st.processed + 1, failed := st.failed + 1,
                  errors := st.errors ++ [classifyError id e],
                  ctr := st.ctr + 1 }) := by
  constructor
  · intro adminOk store ist ot nowIso
    cases adminOk with
    | false => simp [executeAutoOrders]
    | true =>
      by_cases hemp : (store.autoOrders.filter (isCandidate (ot.getD ist.time))).isEmpty
      · simp [executeAutoOrders, hemp]
      · simp [executeAutoOrders, hemp]
  · intro ist nowIso st id ao e ws hrun hdup h
    simp [stepCandidate, hrun, hdup, runTransaction, h]

/-- Witness for C3: an unavailable store is the only `success = false`
outcome, and the ₹3-wallet candidate's failure only bumps the counters and
appends its classified error. -/
theorem success_flag_and_failure_isolation_witness :
    ((executeAutoOrders false sampleStore sampleIST none "T").1.success = false ↔
      (false = false)) ∧
    stepCandidate sampleIST "T" samplePoorState ("a1", sampleAuto) =
      { samplePoorState with
        processed := samplePoorState.processed + 1,
        failed := samplePoorState.failed + 1,
        errors := samplePoorState.errors ++
          [classifyError "a1" .INSUFFICIENT_BALANCE],
        ctr := samplePoorState.ctr + 1 } := by
  refine ⟨success_flag_and_failure_isolation.1 false sampleStore sampleIST none "T", ?_⟩
  exact success_flag_and_failure_isolation.2 sampleIST "T" samplePoorState "a1"
    sampleAuto .INSUFFICIENT_BALANCE _ (by decide) (by decide) rfl

/-- Claim C4: the read phase runs first — a missing account aborts with the
account-not-found kind (`USER_NOT_FOUND` in the source) before anything
else, then a missing catalog item aborts with `ITEM_NOT_FOUND`; then
validation runs in order, first failure winning: explicit
`available = false` gives `ITEM_UNAVAILABLE`, then `quantity < requested`
gives `INSUFFICIENT_STOCK`, then `walletBalance < price * quantity` gives
`INSUFFICIENT_BALANCE`. -/
theorem read_then_validate_order (store : Store) (id : String)
    (ao : AutoOrderDoc) (dateStr nowIso orderId txnId : String) :
    (List.lookup ao.userId store.users = none →
      txBody store id ao dateStr nowIso orderId txnId =
        .error (.USER_NOT_FOUND, [])) ∧
    (∀ userData, List.lookup ao.userId store.users = some userData →
      List.lookup ao.itemId store.menuItems = none →
      txBody store id ao dateStr nowIso orderId txnId =
        .error (.ITEM_NOT_FOUND, [])) ∧
    (∀ userData menuItemData,
      List.lookup ao.userId store.users = some userData →
      List.lookup ao.itemId store.menuItems = some menuItemData →
      menuItemData.available = some false →
      errKind (txBody store id ao dateStr nowIso orderId txnId) =
        some .ITEM_UNAVAILABLE) ∧
    (∀ userData menuItemData,
      List.lookup ao.userId store.users = some userData →
      List.lookup ao.itemId store.menuItems = some menuItemData →
      ¬ menuItemData.available = some false →
      menuItemData.quantity.getD 0 < ao.quantity →
      errKind (txBody store id ao dateStr nowIso orderId txnId) =
        some .INSUFFICIENT_STOCK) ∧
    (∀ userData menuItemData,
      List.lookup ao.userId store.users = some userData →
      List.lookup ao.itemId store.menuItems = some menuItemData →
      ¬ menuItemData.available = some false →
      ¬ menuItemData.quantity.getD 0 < ao.quantity →
      userData.walletBalance.getD 0 < ao.itemPrice * ao.quantity →
      errKind (txBody store id ao dateStr nowIso orderId txnId) =
        some .INSUFFICIENT_BALANCE) := by
  refine ⟨?_, ?_, ?_, ?_, ?_⟩
  · intro hu; simp [txBody, hu]
  · intro userData hu hm; simp [txBody, hu, hm]
  · intro userData menuItemData hu hm hav
    simp [errKind, txBody, hu, hm, hav]
  · intro userData menuItemData hu hm hav hst
    simp [errKind, txBody, hu, hm, hav, hst]
  · intro userData menuItemData hu hm hav hst hbal
    simp [errKind, txBody, hu, hm, hav, hst, hbal]

/-- Witness for C4: each of the five abort kinds at a concrete store —
missing user, missing item, unavailable item, stock 1 below quantity 2,
₹3 wallet below the ₹10 total. -/
theorem read_then_validate_order_witness :
    txBody storeNoUser "a1" sampleAuto "2026-10-11" "T" "ORD0" "TXN0" =
      .error (.USER_NOT_FOUND, []) ∧
    txBody storeNoItem "a1" sampleAuto "2026-10-11" "T" "ORD0" "TXN0" =
      .error (.ITEM_NOT_FOUND, []) ∧
    errKind (txBody storeUnavailable "a1" sampleAuto "2026-10-11" "T" "ORD0" "TXN0") =
      some .ITEM_UNAVAILABLE ∧
    errKind (txBody storeLowStock "a1" sampleAuto "2026-10-11" "T" "ORD0" "TXN0") =
      some .INSUFFICIENT_STOCK ∧
    errKind (txBody storePoor "a1" sampleAuto "2026-10-11" "T" "ORD0" "TXN0") =
      some .INSUFFICIENT_BALANCE := by
  refine ⟨?_, ?_, ?_, ?_, ?_⟩
  · exact (read_then_validate_order storeNoUser "a1" sampleAuto "2026-10-11"
      "T" "ORD0" "TXN0").1 rfl
  · exact (read_then_validate_order storeNoItem "a1" sampleAuto "2026-10-11"
      "T" "ORD0" "TXN0").2.1 sampleUser rfl rfl
  · exact (read_then_validate_order storeUnavailable "a1" sampleAuto "2026-10-11"
      "T" "ORD0" "TXN0").2.2.1 sampleUser { sampleItem with available := some false }
      rfl rfl rfl
  · exact (read_then_validate_order storeLowStock "a1" sampleAuto "2026-10-11"
      "T" "ORD0" "TXN0").2.2.2.1 sampleUser { sampleItem with quantity := some 1 }
      rfl rfl (by decide) (by decide)
  · exact (read_then_validate_order storePoor "a1" sampleAuto "2026-10-11"
      "T" "ORD0" "TXN0").2.2.2.2 { sampleUser with walletBalance := some 3 }
      sampleItem rfl rfl (by decide) (by decide) (by decide)

/-- Claim C7: after a committed execution, the recurring order's stored
`lastExecutedDate` equals that run's date, so a second invocation the same
day skips the candidate — counted as skipped, with no state change. -/
theorem rerun_same_day_idempotent (store : Store) (id : String)
    (ao : AutoOrderDoc) (dateStr nowIso orderId txnId : String) (store2 : Store)
    (hao : List.lookup id store.autoOrders = some ao)
    (hok : runTransaction store id ao dateStr nowIso orderId txnId = .ok store2) :
    ∃ ao2, List.lookup id store2.autoOrders = some ao2 ∧
      ao2.lastExecutedDate = some dateStr ∧
      ∀ (ist : ISTInfo) (nowIso2 : String) (st : EngineState),
        ist.dateStr = dateStr →
        stepCandidate ist nowIso2 st (id, ao2) =
          { st with skipped := st.skipped + 1 } := by
  cases hb : txBody store id ao dateStr nowIso orderId txnId with
  | error pe =>
    obtain ⟨e1, ws1⟩ := pe
    have hre : runTransaction store id ao dateStr nowIso orderId txnId = .error e1 := by
      simp [runTransaction, hb]
    rw [hre] at hok
    simp at hok
  | ok ws =>
    obtain ⟨userData, menuItemData, hu, hm, hav, hst, hbal⟩ :=
      txBody_ok_inv store id ao dateStr nowIso orderId txnId ws hb
    have heq := runTransaction_ok_eq store id ao dateStr nowIso orderId txnId
      userData menuItemData hu hm hav hst hbal
    rw [heq] at hok
    injection hok with hok
    subst hok
    dsimp only
    refine ⟨_, lookup_updateAssoc id _ store.autoOrders ao hao, ?_, ?_⟩
    · rfl
    · intro ist nowIso2 st hist
      exact step_skip_of_guard ist nowIso2 st id _ (by rw [hist])

/-- Witness for C7: after the sample order commits, its stored document
carries today's date and a rerun of the candidate loop skips it. -/
theorem rerun_same_day_idempotent_witness :
    List.lookup "a1" sampleStoreAfter.autoOrders = some sampleAutoAfter ∧
    sampleAutoAfter.lastExecutedDate = some "2026-10-11" ∧
    stepCandidate sampleIST "T2" sampleState ("a1", sampleAutoAfter) =
      { sampleState with skipped := sampleState.skipped + 1 } := by
  obtain ⟨ao2, h1, h2, h3⟩ := rerun_same_day_idempotent sampleStore "a1"
    sampleAuto "2026-10-11" "T" "ORD0" "TXN0" sampleStoreAfter rfl rfl
  have h1x : List.lookup "a1" sampleStoreAfter.autoOrders = some sampleAutoAfter := by
    decide
  have hao2 : ao2 = sampleAutoAfter := Option.some.inj (h1.symm.trans h1x)
  subst hao2
  exact ⟨h1x, h2, h3 sampleIST "T2" sampleState rfl⟩

/-- Claim C8: starting from non-negative stock and balance, a committed
execution leaves the decremented CatalogItem quantity and Account
walletBalance non-negative, because the sufficiency checks are validated
inside the same atomic unit as the decrements. -/
theorem no_negative_stock_or_balance (store : Store) (id : String)
    (ao : AutoOrderDoc) (dateStr nowIso orderId txnId : String)
    (userData : UserDoc) (menuItemData : MenuItemDoc) (store2 : Store)
    (hu : List.lookup ao.userId store.users = some userData)
    (hm : List.lookup ao.itemId store.menuItems = some menuItemData)
    (hq0 : 0 ≤ menuItemData.quantity.getD 0)
    (hb0 : 0 ≤ userData.walletBalance.getD 0)
    (hok : runTransaction store id ao dateStr nowIso orderId txnId = .ok store2) :
    ∃ m2 u2, List.lookup ao.itemId store2.menuItems = some m2 ∧
      0 ≤ m2.quantity.getD 0 ∧
      List.lookup ao.userId store2.users = some u2 ∧
      0 ≤ u2.walletBalance.getD 0 := by
  cases hb : txBody store id ao dateStr nowIso orderId txnId with
  | error pe =>
    obtain ⟨e1, ws1⟩ := pe
    have hre : runTransaction store id ao dateStr nowIso orderId txnId = .error e1 := by
      simp [runTransaction, hb]
    rw [hre] at hok
    simp at hok
  | ok ws =>
    obtain ⟨u2, m2, hu2, hm2, hav, hst, hbal⟩ :=
      txBody_ok_inv store id ao dateStr nowIso orderId txnId ws hb
    rw [hu] at hu2
    rw [hm] at hm2
    injection hu2 with hu2
    injection hm2 with hm2
    subst hu2
    subst hm2
    have heq := runTransaction_ok_eq store id ao dateStr nowIso orderId txnId
      userData menuItemData hu hm hav hst hbal
    rw [heq] at hok
    injection hok with hok
    subst hok
    dsimp only
    refine ⟨_, _, lookup_updateAssoc ao.itemId _ store.menuItems menuItemData hm,
      ?_, lookup_updateAssoc ao.userId _ store.users userData hu, ?_⟩
    · simp
      omega
    · simp
      omega

/-- Witness for C8: the sample commit leaves stock 8 and balance ₹90, both
non-negative. -/
theorem no_negative_stock_or_balance_witness :
    ∃ m2 u2, List.lookup "m1" sampleStoreAfter.menuItems = some m2 ∧
      0 ≤ m2.quantity.getD 0 ∧
      List.lookup "u1" sampleStoreAfter.users = some u2 ∧
      0 ≤ u2.walletBalance.getD 0 :=
  no_negative_stock_or_balance sampleStore "a1" sampleAuto "2026-10-11" "T"
    "ORD0" "TXN0" sampleUser sampleItem sampleStoreAfter rfl rfl (by decide)
    (by decide) rfl

/-- Claim C10: missing document fields default leniently — an absent
`walletBalance` is treated as 0 (any positive total fails the balance
check), an absent `quantity` is treated as 0 (any positive requested
quantity fails the stock check), and an absent `available` flag never
triggers the unavailable abort: only an explicit `false` blocks. -/
theorem lenient_field_defaults (store : Store) (id : String)
    (ao : AutoOrderDoc) (dateStr nowIso orderId txnId : String) :
    (∀ userData menuItemData,
      List.lookup ao.userId store.users = some userData →
      userData.walletBalance = none →
      List.lookup ao.itemId store.menuItems = some menuItemData →
      ¬ menuItemData.available = some false →
      ¬ menuItemData.quantity.getD 0 < ao.quantity →
      0 < ao.itemPrice * ao.quantity →
      errKind (txBody store id ao dateStr nowIso orderId txnId) =
        some .INSUFFICIENT_BALANCE) ∧
    (∀ userData menuItemData,
      List.lookup ao.userId store.users = some userData →
      List.lookup ao.itemId store.menuItems = some menuItemData →
      menuItemData.quantity = none →
      ¬ menuItemData.available = some false →
      0 < ao.quantity →
      errKind (txBody store id ao dateStr nowIso orderId txnId) =
        some .INSUFFICIENT_STOCK) ∧
    (∀ userData menuItemData,
      List.lookup ao.userId store.users = some userData →
      List.lookup ao.itemId store.menuItems = some menuItemData →
      menuItemData.available = none →
      errKind (txBody store id ao dateStr nowIso orderId txnId) ≠
        some .ITEM_UNAVAILABLE) := by
  refine ⟨?_, ?_, ?_⟩
  · intro userData menuItemData hu hwb hm hav hst htot
    simp [errKind, txBody, hu, hm, hav, hst, hwb, htot]
  · intro userData menuItemData hu hm hq hav hqty
    simp [errKind, txBody, hu, hm, hav, hq, hqty]
  · intro userData menuItemData hu hm hav
    have hx : ¬ menuItemData.available = some false := by
      rw [hav]
      simp
    by_cases hst : menuItemData.quantity.getD 0 < ao.quantity
    · simp [errKind, txBody, hu, hm, hx, hst]
    · by_cases hbal : userData.walletBalance.getD 0 < ao.itemPrice * ao.quantity
      · simp [errKind, txBody, hu, hm, hx, hst, hbal]
      · simp [errKind, txBody, hu, hm, hx, hst, hbal]

/-- Witness for C10: an absent wallet field fails the ₹10 total with
insufficient balance; an absent quantity field fails the requested 2 with
insufficient stock; and the sample item with no `available` flag is not
blocked as unavailable. -/
theorem lenient_field_defaults_witness :
    errKind (txBody storeNoWallet "a1" sampleAuto "2026-10-11" "T" "ORD0" "TXN0") =
      some .INSUFFICIENT_BALANCE ∧
    errKind (txBody storeNoQty "a1" sampleAuto "2026-10-11" "T" "ORD0" "TXN0") =
      some .INSUFFICIENT_STOCK ∧
    errKind (txBody sampleStore "a1" sampleAuto "2026-10-11" "T" "ORD0" "TXN0") ≠
      some .ITEM_UNAVAILABLE := by
  refine ⟨?_, ?_, ?_⟩
  · exact (lenient_field_defaults storeNoWallet "a1" sampleAuto "2026-10-11"
      "T" "ORD0" "TXN0").1 { sampleUser with walletBalance := none } sampleItem
      rfl rfl rfl (by decide) (by decide) (by decide)
  · exact (lenient_field_defaults storeNoQty "a1" sampleAuto "2026-10-11"
      "T" "ORD0" "TXN0").2.1 sampleUser { sampleItem with quantity := none }
      rfl rfl rfl (by decide) (by decide)
  · exact (lenient_field_defaults sampleStore "a1" sampleAuto "2026-10-11"
      "T" "ORD0" "TXN0").2.2 sampleUser sampleItem rfl rfl rfl

end AutoOrderEngine
